import Mathlib

/-!
Shallow embedding of the external-resource reconcilers of
provider-bitbucket-server: the access-key and webhook controllers
(Observe/Create/Update/Delete), the REST error vocabulary, and the
SSH keypair generator, together with theorems settling the spec claims.

Remote calls are modelled by passing a service record of functions
(`KeyClientAPI`, `WebhookClientAPI`); every controller operation returns,
next to its Go result, the updated custom resource and the list of remote
calls it issued, so that "no remote call is made" is a statement of the
model.  Go errors are modelled by `GoError`, with `errors.Wrap` as the
`wrap` constructor and `errors.Is(err, bitbucket.ErrNotFound)` as
`GoError.isNotFound`.
-/

/-- Model of the Go error values flowing through the controllers:
`bitbucket.ErrNotFound`, arbitrary other errors, and `errors.Wrap`. -/
inductive GoError where
  | errNotFound : GoError
  | errorMsg : String → GoError
  | wrap : String → GoError → GoError
deriving DecidableEq, Repr

/-- Model of `errors.Is(err, bitbucket.ErrNotFound)`: unwraps `errors.Wrap`
layers and compares against the `ErrNotFound` sentinel. -/
def GoError.isNotFound : GoError → Bool
  | .errNotFound => true
  | .errorMsg _ => false
  | .wrap _ e => e.isNotFound

namespace bitbucket

/-- Model of `bitbucket.Repo` from internal/clients/bitbucket/api.go. -/
structure Repo where
  projectKey : String
  repo : String
deriving DecidableEq, Repr

/-- Model of `bitbucket.AccessKey` from internal/clients/bitbucket/api.go. -/
structure AccessKey where
  key : String
  label : String
  id : Int
  permission : String
deriving DecidableEq, Repr

/-- Model of `bitbucket.Webhook` from internal/clients/bitbucket/api.go; the nested
`Configuration.Secret` field is flattened to `secret`. -/
structure Webhook where
  id : Int
  name : String
  secret : String
  events : List String
  url : String
deriving DecidableEq, Repr

/-- Model of `bitbucket.PermissionRepoRead`. -/
def PermissionRepoRead : String := "REPO_READ"

/-- Model of `bitbucket.PermissionRepoWrite`. -/
def PermissionRepoWrite : String := "REPO_WRITE"

end bitbucket

/-- The Ready-type condition set by `cr.Status.SetConditions` with
`xpv1.Creating()`, `xpv1.Available()` or `xpv1.Deleting()`; all three share
condition type Ready, so setting one replaces the previous one. -/
inductive Condition where
  | creating
  | available
  | deleting
deriving DecidableEq, Repr

namespace accesskeyapi

/-- Model of `v1alpha1.PublicKey` from apis/accesskey/v1alpha1/types.go. -/
structure PublicKey where
  label : String
  key : String
  permission : String
deriving DecidableEq, Repr

/-- Model of `v1alpha1.AccessKeyParameters` from apis/accesskey/v1alpha1/types.go. -/
structure AccessKeyParameters where
  projectKey : String
  repoName : String
  publicKey : PublicKey
deriving DecidableEq, Repr

/-- Model of `v1alpha1.AccessKeyObservation` from apis/accesskey/v1alpha1/types.go. -/
structure AccessKeyObservation where
  id : Int
  key : Option PublicKey
deriving DecidableEq, Repr

/-- The `v1alpha1.AccessKey` custom resource, restricted to the fields the
controller reads or writes: the external-name annotation
(`meta.GetExternalName`/`meta.SetExternalName`), `Spec.ForProvider`,
`Status.AtProvider` and the Ready condition. -/
structure AccessKey where
  externalName : String
  forProvider : AccessKeyParameters
  atProvider : AccessKeyObservation
  condition : Option Condition
deriving DecidableEq, Repr

/-- Model of `AccessKey.Repo()` from apis/accesskey/v1alpha1/types.go. -/
def AccessKey.repo (a : AccessKey) : bitbucket.Repo :=
  { projectKey := a.forProvider.projectKey, repo := a.forProvider.repoName }

/-- Model of `AccessKey.AccessKey()` from apis/accesskey/v1alpha1/types.go: the
conversion to the REST object, leaving `ID` at its zero value. -/
def AccessKey.accessKey (a : AccessKey) : bitbucket.AccessKey :=
  { key := a.forProvider.publicKey.key
    label := a.forProvider.publicKey.label
    id := 0
    permission := a.forProvider.publicKey.permission }

end accesskeyapi

/-- Decimal value of a nonempty run of ASCII digits, `none` on any
non-digit or on the empty list. -/
def digitsToNat? : List Char → Option Nat
  | [] => none
  | [c] => if '0' ≤ c ∧ c ≤ '9' then some (c.toNat - '0'.toNat) else none
  | c :: rest => do
      let d ← if '0' ≤ c ∧ c ≤ '9' then some (c.toNat - '0'.toNat) else none
      let r ← digitsToNat? rest
      pure (d * 10 ^ rest.length + r)

/-- Optional leading sign followed by digits, as accepted by Go's
`strconv.ParseInt` base 10; returns (negative?, magnitude). -/
def parseSigned : List Char → Option (Bool × Nat)
  | '+' :: rest => (digitsToNat? rest).map (fun n => (false, n))
  | '-' :: rest => (digitsToNat? rest).map (fun n => (true, n))
  | cs => (digitsToNat? cs).map (fun n => (false, n))

/-- Model of Go's `strconv.Atoi` on a 64-bit platform: returns the parsed
value together with an ok flag (`true` iff Go returns a nil error).  On a
syntax error Go returns 0; on a range error it returns the clamped
boundary value; both with a non-nil error. -/
def atoi (s : String) : Int × Bool :=
  match parseSigned s.data with
  | none => (0, false)
  | some (false, n) =>
      if n ≤ 2 ^ 63 - 1 then (Int.ofNat n, true) else ((2 : Int) ^ 63 - 1, false)
  | some (true, n) =>
      if n ≤ 2 ^ 63 then (-(Int.ofNat n), true) else (-((2 : Int) ^ 63), false)

/-- Model of `managed.ExternalObservation`, restricted to the two booleans the
controllers actually set (`ConnectionDetails` is always empty in Observe). -/
structure ExternalObservation where
  resourceExists : Bool
  resourceUpToDate : Bool
deriving DecidableEq, Repr

/-- Model of `managed.ExternalCreation`: named connection-detail blobs plus the
external-name-assigned flag. -/
structure ExternalCreation where
  connectionDetails : List (String × String)
  externalNameAssigned : Bool
deriving DecidableEq, Repr

/-- Result of a controller operation: the Go return value, the custom
resource after the call (Go mutates it in place), and the remote calls
issued during the call, in order. -/
structure Out (σ κ α : Type) where
  result : Except GoError α
  cr : σ
  calls : List κ
deriving Repr

/-- Result of Create, additionally recording whether the secret-material
generator (`c.keygen` / `c.pwgen`) was invoked. -/
structure CreateOut (σ κ : Type) where
  result : Except GoError ExternalCreation
  cr : σ
  calls : List κ
  genCalled : Bool
deriving Repr

namespace accesskey

/-- Error-message constants of internal/controller/accesskey/accesskey.go. -/
def errGetFailed : String := "cannot get access key from bitbucket API"

/-- Model of `errDeleteFailed` of accesskey.go. -/
def errDeleteFailed : String := "cannot delete access key from bitbucket API"

/-- Model of `errCreateFailed` of accesskey.go. -/
def errCreateFailed : String := "cannot create access key with bitbucket API"

/-- Model of `errUpdateFailed` of accesskey.go. -/
def errUpdateFailed : String := "cannot update access permission key with bitbucket API"

/-- Model of `bitbucket.KeyClientAPI`: the remote service, as a record of the four
operations the controller uses (ListAccessKeys is never called). -/
structure KeyClientAPI where
  getAccessKey : bitbucket.Repo → Int → Except GoError bitbucket.AccessKey
  createAccessKey : bitbucket.Repo → bitbucket.AccessKey → Except GoError bitbucket.AccessKey
  updateAccessKeyPermission : bitbucket.Repo → Int → String → Except GoError Unit
  deleteAccessKey : bitbucket.Repo → Int → Except GoError Unit

/-- One remote call issued by the access-key controller. -/
inductive KeyCall where
  | getAccessKey (repo : bitbucket.Repo) (id : Int)
  | createAccessKey (repo : bitbucket.Repo) (key : bitbucket.AccessKey)
  | updateAccessKeyPermission (repo : bitbucket.Repo) (id : Int) (permission : String)
  | deleteAccessKey (repo : bitbucket.Repo) (id : Int)
deriving DecidableEq, Repr

/-- Model of `external.Observe` of accesskey.go: empty external name → no remote
call, zero observation; unparsable external name → likewise; remote get
NotFound → zero observation, no error; other get error → wrapped error;
success → status fields and Available set, upToDate compares only the
permission field. -/
def Observe (svc : KeyClientAPI) (cr : accesskeyapi.AccessKey) :
    Out accesskeyapi.AccessKey KeyCall ExternalObservation :=
  if cr.externalName = "" then ⟨.ok ⟨false, false⟩, cr, []⟩
  else
    let (id, ok) := atoi cr.externalName
    if ¬ ok then ⟨.ok ⟨false, false⟩, cr, []⟩
    else
      match svc.getAccessKey cr.repo id with
      | .error e =>
          if e.isNotFound then ⟨.ok ⟨false, false⟩, cr, [.getAccessKey cr.repo id]⟩
          else ⟨.error (.wrap errGetFailed e), cr, [.getAccessKey cr.repo id]⟩
      | .ok key =>
          let cr' : accesskeyapi.AccessKey :=
            { cr with
              condition := some .available
              atProvider :=
                { id := key.id
                  key := some { key := key.key, label := key.label, permission := key.permission } } }
          ⟨.ok ⟨true, key.permission == cr.forProvider.publicKey.permission⟩, cr',
            [.getAccessKey cr.repo id]⟩

/-- The lower-case `external.create` helper of accesskey.go: issues the
remote create and, on success, records the returned ID as external name
and fills the status fields. -/
def createHelper (svc : KeyClientAPI) (cr : accesskeyapi.AccessKey) :
    Out accesskeyapi.AccessKey KeyCall Unit :=
  match svc.createAccessKey cr.repo cr.accessKey with
  | .error e => ⟨.error e, cr, [.createAccessKey cr.repo cr.accessKey]⟩
  | .ok key =>
      ⟨.ok (),
        { cr with
          externalName := toString key.id
          condition := some .available
          atProvider :=
            { id := key.id
              key := some { key := key.key, label := key.label, permission := key.permission } } },
        [.createAccessKey cr.repo cr.accessKey]⟩

/-- Model of `external.Create` of accesskey.go.  `kg` is the outcome of `c.keygen()`:
on success a pair (public authorized-key line, PEM private key bytes).
When the declared public key is empty the generated public key is written
into `cr.Spec.ForProvider.PublicKey.Key` itself and the private key into
the connection details under "ssh-privatekey". -/
def Create (svc : KeyClientAPI) (kg : Except GoError (String × String))
    (cr₀ : accesskeyapi.AccessKey) : CreateOut accesskeyapi.AccessKey KeyCall :=
  let cr : accesskeyapi.AccessKey := { cr₀ with condition := some .creating }
  if cr.forProvider.publicKey.key = "" then
    match kg with
    | .error e =>
        ⟨.error e, { cr with forProvider.publicKey.key := "" }, [], true⟩
    | .ok (pub, priv) =>
        let cr' : accesskeyapi.AccessKey := { cr with forProvider.publicKey.key := pub }
        let conndetails := [("ssh-privatekey", priv)]
        match createHelper svc cr' with
        | ⟨.error e, cr'', calls⟩ => ⟨.error (.wrap errCreateFailed e), cr'', calls, true⟩
        | ⟨.ok _, cr'', calls⟩ =>
            ⟨.ok ⟨conndetails, true⟩, { cr'' with condition := some .available }, calls, true⟩
  else
    match createHelper svc cr with
    | ⟨.error e, cr'', calls⟩ => ⟨.error (.wrap errCreateFailed e), cr'', calls, false⟩
    | ⟨.ok _, cr'', calls⟩ =>
        ⟨.ok ⟨[], true⟩, { cr'' with condition := some .available }, calls, false⟩

/-- Model of `external.Update` of accesskey.go: the `strconv.Atoi` error is
discarded (`id, _ := ...`), and the remote permission update is always
issued with whatever id came back. -/
def Update (svc : KeyClientAPI) (cr : accesskeyapi.AccessKey) :
    Out accesskeyapi.AccessKey KeyCall Unit :=
  let id := (atoi cr.externalName).1
  match svc.updateAccessKeyPermission cr.repo id cr.forProvider.publicKey.permission with
  | .error e =>
      ⟨.error (.wrap errUpdateFailed e), cr,
        [.updateAccessKeyPermission cr.repo id cr.forProvider.publicKey.permission]⟩
  | .ok _ =>
      ⟨.ok (), cr,
        [.updateAccessKeyPermission cr.repo id cr.forProvider.publicKey.permission]⟩

/-- Model of `external.Delete` of accesskey.go: Atoi error discarded, remote delete
issued; any remote error (NotFound included) is wrapped and returned; the
Deleting condition is set only on success. -/
def Delete (svc : KeyClientAPI) (cr : accesskeyapi.AccessKey) :
    Out accesskeyapi.AccessKey KeyCall Unit :=
  let id := (atoi cr.externalName).1
  match svc.deleteAccessKey cr.repo id with
  | .error e => ⟨.error (.wrap errDeleteFailed e), cr, [.deleteAccessKey cr.repo id]⟩
  | .ok _ => ⟨.ok (), { cr with condition := some .deleting }, [.deleteAccessKey cr.repo id]⟩

end accesskey

namespace webhookapi

/-- Model of `v1alpha1.BitbucketWebhookConfiguration` from apis/webhook/v1alpha1/types.go. -/
structure BitbucketWebhookConfiguration where
  secret : String
deriving DecidableEq, Repr

/-- Model of `v1alpha1.BitbucketWebhook` from apis/webhook/v1alpha1/types.go;
`Event` is a string newtype, modelled as `String`. -/
structure BitbucketWebhook where
  name : String
  configuration : BitbucketWebhookConfiguration
  events : List String
  url : String
deriving DecidableEq, Repr

/-- Model of `v1alpha1.WebhookParameters` from apis/webhook/v1alpha1/types.go. -/
structure WebhookParameters where
  projectKey : String
  repoName : String
  webhook : BitbucketWebhook
deriving DecidableEq, Repr

/-- The `v1alpha1.Webhook` custom resource, restricted to the fields the
controller reads or writes (the `AtProvider.ID` status field is never
written by the webhook controller). -/
structure Webhook where
  externalName : String
  forProvider : WebhookParameters
  condition : Option Condition
deriving DecidableEq, Repr

/-- Model of `Webhook.Repo()` from apis/webhook/v1alpha1/types.go. -/
def Webhook.repo (a : Webhook) : bitbucket.Repo :=
  { projectKey := a.forProvider.projectKey, repo := a.forProvider.repoName }

/-- Model of `Webhook.Webhook()` from apis/webhook/v1alpha1/types.go: conversion to
the REST object, leaving `ID` at its zero value and copying the events. -/
def Webhook.toWebhook (a : Webhook) : bitbucket.Webhook :=
  { id := 0
    name := a.forProvider.webhook.name
    secret := a.forProvider.webhook.configuration.secret
    events := a.forProvider.webhook.events
    url := a.forProvider.webhook.url }

end webhookapi

namespace webhook

/-- Error-message constants of the webhook controller source. -/
def errGetFailed : String := "cannot get webhook from bitbucket API"

/-- Model of `errDeleteFailed` of the webhook controller. -/
def errDeleteFailed : String := "cannot delete webhook from bitbucket API"

/-- Model of `errCreateFailed` of the webhook controller. -/
def errCreateFailed : String := "cannot create webhook with bitbucket API"

/-- Model of `errUpdateFailed` of the webhook controller. -/
def errUpdateFailed : String := "cannot update webhook with bitbucket API"

/-- Model of `bitbucket.WebhookClientAPI`: the remote service record. -/
structure WebhookClientAPI where
  getWebhook : bitbucket.Repo → Int → Except GoError bitbucket.Webhook
  createWebhook : bitbucket.Repo → bitbucket.Webhook → Except GoError bitbucket.Webhook
  updateWebhook : bitbucket.Repo → Int → bitbucket.Webhook → Except GoError bitbucket.Webhook
  deleteWebhook : bitbucket.Repo → Int → Except GoError Unit

/-- One remote call issued by the webhook controller. -/
inductive WebhookCall where
  | getWebhook (repo : bitbucket.Repo) (id : Int)
  | createWebhook (repo : bitbucket.Repo) (hook : bitbucket.Webhook)
  | updateWebhook (repo : bitbucket.Repo) (id : Int) (hook : bitbucket.Webhook)
  | deleteWebhook (repo : bitbucket.Repo) (id : Int)
deriving DecidableEq, Repr

/-- The `cmp.Transformer("Sort", ...)` of the webhook Observe: copies the
event slice and sorts it with `sort.Strings` before comparison.  Modelled
with insertion sort under the lexicographic order on strings. -/
def sortStrings (l : List String) : List String :=
  l.insertionSort (· ≤ ·)

/-- The diff the webhook Observe computes:
`cmp.Diff(cr.Webhook(), hook, ignoreEventOrder, ignoreID) == ""`.
All exported fields are compared except `ID`
(`cmpopts.IgnoreFields(bitbucket.Webhook{}, "ID")`), with both event
lists sorted first. -/
def upToDateHook (d o : bitbucket.Webhook) : Bool :=
  d.name == o.name && d.secret == o.secret &&
    sortStrings d.events == sortStrings o.events && d.url == o.url

/-- Model of `external.Observe` of the webhook controller. -/
def Observe (svc : WebhookClientAPI) (cr : webhookapi.Webhook) :
    Out webhookapi.Webhook WebhookCall ExternalObservation :=
  if cr.externalName = "" then ⟨.ok ⟨false, false⟩, cr, []⟩
  else
    let (id, ok) := atoi cr.externalName
    if ¬ ok then ⟨.ok ⟨false, false⟩, cr, []⟩
    else
      match svc.getWebhook cr.repo id with
      | .error e =>
          if e.isNotFound then ⟨.ok ⟨false, false⟩, cr, [.getWebhook cr.repo id]⟩
          else ⟨.error (.wrap errGetFailed e), cr, [.getWebhook cr.repo id]⟩
      | .ok hook =>
          ⟨.ok ⟨true, upToDateHook cr.toWebhook hook⟩, cr, [.getWebhook cr.repo id]⟩

/-- Model of `external.Create` of the webhook controller.  `pw` is the outcome of
`c.pwgen()`.  The generated secret is spliced into the local copy
`hook := cr.Webhook()` only; the specification's secret field is not
touched.  On success the connection details carry the secret that was
sent, generated or declared. -/
def Create (svc : WebhookClientAPI) (pw : Except GoError String)
    (cr₀ : webhookapi.Webhook) : CreateOut webhookapi.Webhook WebhookCall :=
  let cr : webhookapi.Webhook := { cr₀ with condition := some .creating }
  let hook := cr.toWebhook
  if hook.secret = "" then
    match pw with
    | .error e =>
        ⟨.error (.wrap "could not generate random password" e), cr, [], true⟩
    | .ok secret =>
        let hook' : bitbucket.Webhook := { hook with secret := secret }
        match svc.createWebhook cr.repo hook' with
        | .error e =>
            ⟨.error (.wrap errCreateFailed e), cr, [.createWebhook cr.repo hook'], true⟩
        | .ok key =>
            ⟨.ok ⟨[("secret", hook'.secret)], true⟩,
              { cr with externalName := toString key.id, condition := some .available },
              [.createWebhook cr.repo hook'], true⟩
  else
    match svc.createWebhook cr.repo hook with
    | .error e =>
        ⟨.error (.wrap errCreateFailed e), cr, [.createWebhook cr.repo hook], false⟩
    | .ok key =>
        ⟨.ok ⟨[("secret", hook.secret)], true⟩,
          { cr with externalName := toString key.id, condition := some .available },
          [.createWebhook cr.repo hook], false⟩

/-- Model of `external.Update` of the webhook controller: Atoi error discarded, the
remote update is issued with `cr.Webhook()` under whatever id was parsed;
Available is set on success. -/
def Update (svc : WebhookClientAPI) (cr : webhookapi.Webhook) :
    Out webhookapi.Webhook WebhookCall Unit :=
  let id := (atoi cr.externalName).1
  match svc.updateWebhook cr.repo id cr.toWebhook with
  | .error e =>
      ⟨.error (.wrap errUpdateFailed e), cr, [.updateWebhook cr.repo id cr.toWebhook]⟩
  | .ok _ =>
      ⟨.ok (), { cr with condition := some .available },
        [.updateWebhook cr.repo id cr.toWebhook]⟩

/-- Model of `external.Delete` of the webhook controller: the Deleting condition is
set before the remote call; any remote error (NotFound included) is
wrapped and returned. -/
def Delete (svc : WebhookClientAPI) (cr : webhookapi.Webhook) :
    Out webhookapi.Webhook WebhookCall Unit :=
  let cr' : webhookapi.Webhook := { cr with condition := some .deleting }
  let id := (atoi cr'.externalName).1
  match svc.deleteWebhook cr'.repo id with
  | .error e => ⟨.error (.wrap errDeleteFailed e), cr', [.deleteWebhook cr'.repo id]⟩
  | .ok _ => ⟨.ok (), cr', [.deleteWebhook cr'.repo id]⟩

end webhook

namespace accesskey

/-- Go's `rsa.PublicKey`: modulus and public exponent. -/
structure RSAPublicKey where
  n : Nat
  e : Nat
deriving DecidableEq, Repr

/-- Go's `rsa.PrivateKey` as produced by `rsa.GenerateKey`: it embeds its
`PublicKey` next to the private exponent and the prime factors. -/
structure RSAPrivateKey where
  publicKey : RSAPublicKey
  d : Nat
  primes : List Nat
deriving DecidableEq, Repr

/-- Model of `x509.MarshalPKCS1PrivateKey`: the ASN.1 RSAPrivateKey
sequence (version 0, modulus, public exponent, private exponent, primes),
modelled as the list of its integer fields rather than DER bytes. -/
def marshalPKCS1PrivateKey (k : RSAPrivateKey) : List Nat :=
  0 :: k.publicKey.n :: k.publicKey.e :: k.d :: k.primes

/-- Inverse direction of the PKCS#1 encoding, as performed by
`x509.ParsePKCS1PrivateKey` (which is what `ssh-keygen -y` and
`ssh.ParseRawPrivateKey` do with an "RSA PRIVATE KEY" block). -/
def parsePKCS1PrivateKey : List Nat → Option RSAPrivateKey
  | 0 :: n :: e :: d :: primes => some ⟨⟨n, e⟩, d, primes⟩
  | _ => none

/-- Model of a `pem.Block` as written by `pem.Encode`: the type line and
the DER payload. -/
structure PEMBlock where
  type : String
  bytes : List Nat
deriving DecidableEq, Repr

/-- Model of `pem.Decode` over a single well-formed block: returns the
block itself (byte-level framing is not modelled). -/
def pemDecode (b : PEMBlock) : PEMBlock := b

/-- Model of `ssh.NewPublicKey` on an `*rsa.PublicKey`: wraps the key for
wire marshalling. -/
structure SSHPublicKey where
  pub : RSAPublicKey
deriving DecidableEq, Repr

/-- Model of `ssh.NewPublicKey`. -/
def sshNewPublicKey (p : RSAPublicKey) : SSHPublicKey := ⟨p⟩

/-- Model of `ssh.MarshalAuthorizedKey`: renders the OpenSSH
authorized-key line; the rendering is an injective function of the
public-key numbers (e, n), modelled as decimal text in place of the
base64 wire encoding. -/
def marshalAuthorizedKey (k : SSHPublicKey) : String :=
  "ssh-rsa " ++ toString k.pub.e ++ " " ++ toString k.pub.n ++ "\n"

/-- Model of `keygen` of accesskey.go, parametrized over the key material that
`rsa.GenerateKey(rand.Reader, 2048)` produced: returns the OpenSSH
authorized-key line for the embedded public key and the private key in a
PEM block of type "RSA PRIVATE KEY" holding the PKCS#1 serialization. -/
def keygen (privateKey : RSAPrivateKey) : String × PEMBlock :=
  let privateKeyPEM : PEMBlock :=
    { type := "RSA PRIVATE KEY", bytes := marshalPKCS1PrivateKey privateKey }
  let pub := sshNewPublicKey privateKey.publicKey
  (marshalAuthorizedKey pub, privateKeyPEM)

/-- Independent reconstruction of the public half from the serialized
private key, as `ssh-keygen -y` does: decode the PEM block, check its
type, parse the PKCS#1 structure, take the embedded public key and render
its authorized-key line. -/
def rederivePublicKey (pemBytes : PEMBlock) : Option String :=
  let block := pemDecode pemBytes
  if block.type = "RSA PRIVATE KEY" then
    (parsePKCS1PrivateKey block.bytes).map fun k =>
      marshalAuthorizedKey (sshNewPublicKey k.publicKey)
  else none

end accesskey

/-! Shared helper lemmas and concrete fixtures used by the claim theorems
and their witnesses. -/

theorem ak_observe_empty_name (svc : accesskey.KeyClientAPI)
    (cr : accesskeyapi.AccessKey) (h : cr.externalName = "") :
    accesskey.Observe svc cr = ⟨.ok ⟨false, false⟩, cr, []⟩ := by
  simp [accesskey.Observe, h]

theorem ak_observe_parse_failure (svc : accesskey.KeyClientAPI)
    (cr : accesskeyapi.AccessKey) (h : (atoi cr.externalName).2 = false) :
    accesskey.Observe svc cr = ⟨.ok ⟨false, false⟩, cr, []⟩ := by
  by_cases hn : cr.externalName = ""
  · simp [accesskey.Observe, hn]
  · rcases hA : atoi cr.externalName with ⟨id, ok⟩
    rw [hA] at h
    simp at h
    simp [accesskey.Observe, hn, hA, h]

theorem wh_observe_empty_name (svc : webhook.WebhookClientAPI)
    (cr : webhookapi.Webhook) (h : cr.externalName = "") :
    webhook.Observe svc cr = ⟨.ok ⟨false, false⟩, cr, []⟩ := by
  simp [webhook.Observe, h]

theorem wh_observe_parse_failure (svc : webhook.WebhookClientAPI)
    (cr : webhookapi.Webhook) (h : (atoi cr.externalName).2 = false) :
    webhook.Observe svc cr = ⟨.ok ⟨false, false⟩, cr, []⟩ := by
  by_cases hn : cr.externalName = ""
  · simp [webhook.Observe, hn]
  · rcases hA : atoi cr.externalName with ⟨id, ok⟩
    rw [hA] at h
    simp at h
    simp [webhook.Observe, hn, hA, h]

theorem sortStrings_perm_eq {l₁ l₂ : List String} (h : l₁.Perm l₂) :
    webhook.sortStrings l₁ = webhook.sortStrings l₂ := by
  apply List.eq_of_perm_of_sorted (r := fun a b : String => a ≤ b)
    ((List.perm_insertionSort _ _).trans (h.trans (List.perm_insertionSort _ _).symm))
  · exact List.sorted_insertionSort _ _
  · exact List.sorted_insertionSort _ _

/-- Concrete access-key parameters used by the witnesses, mirroring the
repository's own test fixture (proj/repo, REPO_READ). -/
def akParams (key : String) : accesskeyapi.AccessKeyParameters :=
  { projectKey := "proj", repoName := "repo"
    publicKey := { label := "user@example.com", key := key, permission := "REPO_READ" } }

/-- Concrete access-key custom resource with a given external name and key. -/
def akCR (name key : String) : accesskeyapi.AccessKey :=
  { externalName := name, forProvider := akParams key, atProvider := ⟨0, none⟩, condition := none }

/-- Concrete remote access key returned by the all-ok service. -/
def keyFix : bitbucket.AccessKey :=
  { key := "ssh-rsa AAA", label := "user@example.com", id := 99, permission := "REPO_READ" }

/-- Access-key service answering every operation successfully. -/
def keySvcOk : accesskey.KeyClientAPI :=
  { getAccessKey := fun _ _ => .ok keyFix
    createAccessKey := fun _ k => .ok { k with id := 22 }
    updateAccessKeyPermission := fun _ _ _ => .ok ()
    deleteAccessKey := fun _ _ => .ok () }

/-- Access-key service whose create always fails with a transport error. -/
def keySvcCreateBoom : accesskey.KeyClientAPI :=
  { keySvcOk with createAccessKey := fun _ _ => .error (.errorMsg "boom") }

/-- Access-key service whose get and delete report NotFound. -/
def keySvcNotFound : accesskey.KeyClientAPI :=
  { keySvcOk with
    getAccessKey := fun _ _ => .error .errNotFound
    deleteAccessKey := fun _ _ => .error .errNotFound }

/-- Access-key service whose get fails with a transport error. -/
def keySvcGetBoom : accesskey.KeyClientAPI :=
  { keySvcOk with getAccessKey := fun _ _ => .error (.errorMsg "boom") }

/-- Concrete webhook custom resource, mirroring the repository's webhook
test fixture. -/
def whCR (name secret : String) (events : List String) : webhookapi.Webhook :=
  { externalName := name
    forProvider :=
      { projectKey := "proj", repoName := "repo"
        webhook :=
          { name := "name", configuration := { secret := secret }
            events := events, url := "https://example.com" } }
    condition := none }

/-- Webhook service answering every operation successfully, with get
returning the supplied hook. -/
def whSvcOk (hook : bitbucket.Webhook) : webhook.WebhookClientAPI :=
  { getWebhook := fun _ _ => .ok hook
    createWebhook := fun _ h => .ok { h with id := 22 }
    updateWebhook := fun _ _ h => .ok h
    deleteWebhook := fun _ _ => .ok () }

/-- Webhook service whose create always fails with a transport error. -/
def whSvcCreateBoom : webhook.WebhookClientAPI :=
  { whSvcOk (whCR "" "123" []).toWebhook with createWebhook := fun _ _ => .error (.errorMsg "boom") }

/-- Webhook service whose get and delete report NotFound. -/
def whSvcNotFound : webhook.WebhookClientAPI :=
  { whSvcOk (whCR "" "123" []).toWebhook with
    getWebhook := fun _ _ => .error .errNotFound
    deleteWebhook := fun _ _ => .error .errNotFound }

/-- Webhook service whose get fails with a transport error. -/
def whSvcGetBoom : webhook.WebhookClientAPI :=
  { whSvcOk (whCR "" "123" []).toWebhook with getWebhook := fun _ _ => .error (.errorMsg "boom") }

/-- C3: for both kinds, Observe with an empty or unparsable external name
returns exists=false with no error and no remote call; a NotFound remote
fetch returns exists=false with no error; any other fetch failure aborts
the observation with the wrapped error. -/
theorem C3_observe_error_handling :
    (∀ (svc : accesskey.KeyClientAPI) (cr : accesskeyapi.AccessKey),
        cr.externalName = "" →
        accesskey.Observe svc cr = ⟨.ok ⟨false, false⟩, cr, []⟩) ∧
    (∀ (svc : accesskey.KeyClientAPI) (cr : accesskeyapi.AccessKey),
        (atoi cr.externalName).2 = false →
        accesskey.Observe svc cr = ⟨.ok ⟨false, false⟩, cr, []⟩) ∧
    (∀ (svc : accesskey.KeyClientAPI) (cr : accesskeyapi.AccessKey) (id : Int) (e : GoError),
        cr.externalName ≠ "" → atoi cr.externalName = (id, true) →
        svc.getAccessKey cr.repo id = .error e → e.isNotFound = true →
        (accesskey.Observe svc cr).result = .ok ⟨false, false⟩) ∧
    (∀ (svc : accesskey.KeyClientAPI) (cr : accesskeyapi.AccessKey) (id : Int) (e : GoError),
        cr.externalName ≠ "" → atoi cr.externalName = (id, true) →
        svc.getAccessKey cr.repo id = .error e → e.isNotFound = false →
        (accesskey.Observe svc cr).result = .error (.wrap accesskey.errGetFailed e)) ∧
    (∀ (svc : webhook.WebhookClientAPI) (cr : webhookapi.Webhook),
        cr.externalName = "" →
        webhook.Observe svc cr = ⟨.ok ⟨false, false⟩, cr, []⟩) ∧
    (∀ (svc : webhook.WebhookClientAPI) (cr : webhookapi.Webhook),
        (atoi cr.externalName).2 = false →
        webhook.Observe svc cr = ⟨.ok ⟨false, false⟩, cr, []⟩) ∧
    (∀ (svc : webhook.WebhookClientAPI) (cr : webhookapi.Webhook) (id : Int) (e : GoError),
        cr.externalName ≠ "" → atoi cr.externalName = (id, true) →
        svc.getWebhook cr.repo id = .error e → e.isNotFound = true →
        (webhook.Observe svc cr).result = .ok ⟨false, false⟩) ∧
    (∀ (svc : webhook.WebhookClientAPI) (cr : webhookapi.Webhook) (id : Int) (e : GoError),
        cr.externalName ≠ "" → atoi cr.externalName = (id, true) →
        svc.getWebhook cr.repo id = .error e → e.isNotFound = false →
        (webhook.Observe svc cr).result = .error (.wrap webhook.errGetFailed e)) := by
  refine ⟨?_, ?_, ?_, ?_, ?_, ?_, ?_, ?_⟩
  · exact ak_observe_empty_name
  · exact ak_observe_parse_failure
  · intro svc cr id e hn hA hget hnf
    simp [accesskey.Observe, hn, hA, hget, hnf]
  · intro svc cr id e hn hA hget hnf
    simp [accesskey.Observe, hn, hA, hget, hnf]
  · exact wh_observe_empty_name
  · exact wh_observe_parse_failure
  · intro svc cr id e hn hA hget hnf
    simp [webhook.Observe, hn, hA, hget, hnf]
  · intro svc cr id e hn hA hget hnf
    simp [webhook.Observe, hn, hA, hget, hnf]

/-- Witness for C3 at concrete inputs: empty name, unparsable name "zzz",
NotFound fetch and failing fetch, for both kinds. -/
theorem C3_observe_error_handling_witness :
    (accesskey.Observe keySvcOk (akCR "" "k") = ⟨.ok ⟨false, false⟩, akCR "" "k", []⟩) ∧
    (accesskey.Observe keySvcOk (akCR "zzz" "k") = ⟨.ok ⟨false, false⟩, akCR "zzz" "k", []⟩) ∧
    ((accesskey.Observe keySvcNotFound (akCR "99" "k")).result = .ok ⟨false, false⟩) ∧
    ((accesskey.Observe keySvcGetBoom (akCR "99" "k")).result =
      .error (.wrap accesskey.errGetFailed (.errorMsg "boom"))) ∧
    (webhook.Observe whSvcNotFound (whCR "" "123" []) =
      ⟨.ok ⟨false, false⟩, whCR "" "123" [], []⟩) ∧
    (webhook.Observe whSvcNotFound (whCR "zzz" "123" []) =
      ⟨.ok ⟨false, false⟩, whCR "zzz" "123" [], []⟩) ∧
    ((webhook.Observe whSvcNotFound (whCR "99" "123" [])).result = .ok ⟨false, false⟩) ∧
    ((webhook.Observe whSvcGetBoom (whCR "99" "123" [])).result =
      .error (.wrap webhook.errGetFailed (.errorMsg "boom"))) :=
  ⟨C3_observe_error_handling.1 keySvcOk (akCR "" "k") rfl,
   C3_observe_error_handling.2.1 keySvcOk (akCR "zzz" "k") rfl,
   C3_observe_error_handling.2.2.1 keySvcNotFound (akCR "99" "k") 99 .errNotFound
     (by decide) rfl rfl rfl,
   C3_observe_error_handling.2.2.2.1 keySvcGetBoom (akCR "99" "k") 99 (.errorMsg "boom")
     (by decide) rfl rfl rfl,
   C3_observe_error_handling.2.2.2.2.1 whSvcNotFound (whCR "" "123" []) rfl,
   C3_observe_error_handling.2.2.2.2.2.1 whSvcNotFound (whCR "zzz" "123" []) rfl,
   C3_observe_error_handling.2.2.2.2.2.2.1 whSvcNotFound (whCR "99" "123" []) 99 .errNotFound
     (by decide) rfl rfl rfl,
   C3_observe_error_handling.2.2.2.2.2.2.2 whSvcGetBoom (whCR "99" "123" []) 99 (.errorMsg "boom")
     (by decide) rfl rfl rfl⟩

/-- C1: for both kinds, when key/secret generation succeeds but the remote
create fails, Create returns the wrapped error, the external name stays
empty, and a subsequent Observe on the resulting resource reports
exists=false without any remote call. -/
theorem C1_failed_create_leaves_identity_unset :
    (∀ (svc : accesskey.KeyClientAPI) (g : String × String) (e : GoError)
        (cr : accesskeyapi.AccessKey),
      cr.externalName = "" →
      (∀ r k, svc.createAccessKey r k = .error e) →
      (accesskey.Create svc (.ok g) cr).result = .error (.wrap accesskey.errCreateFailed e) ∧
      (accesskey.Create svc (.ok g) cr).cr.externalName = "" ∧
      ∀ svc₂, accesskey.Observe svc₂ (accesskey.Create svc (.ok g) cr).cr =
        ⟨.ok ⟨false, false⟩, (accesskey.Create svc (.ok g) cr).cr, []⟩) ∧
    (∀ (svc : webhook.WebhookClientAPI) (s : String) (e : GoError)
        (cr : webhookapi.Webhook),
      cr.externalName = "" →
      (∀ r h, svc.createWebhook r h = .error e) →
      (webhook.Create svc (.ok s) cr).result = .error (.wrap webhook.errCreateFailed e) ∧
      (webhook.Create svc (.ok s) cr).cr.externalName = "" ∧
      ∀ svc₂, webhook.Observe svc₂ (webhook.Create svc (.ok s) cr).cr =
        ⟨.ok ⟨false, false⟩, (webhook.Create svc (.ok s) cr).cr, []⟩) := by
  constructor
  · intro svc g e cr hname hfail
    have hres : (accesskey.Create svc (.ok g) cr).result =
        .error (.wrap accesskey.errCreateFailed e) ∧
        (accesskey.Create svc (.ok g) cr).cr.externalName = "" := by
      by_cases hk : cr.forProvider.publicKey.key = ""
      · simp [accesskey.Create, accesskey.createHelper, hk, hfail, hname]
      · simp [accesskey.Create, accesskey.createHelper, hk, hfail, hname]
    exact ⟨hres.1, hres.2, fun svc₂ => ak_observe_empty_name svc₂ _ hres.2⟩
  · intro svc s e cr hname hfail
    have hres : (webhook.Create svc (.ok s) cr).result =
        .error (.wrap webhook.errCreateFailed e) ∧
        (webhook.Create svc (.ok s) cr).cr.externalName = "" := by
      by_cases hk : cr.forProvider.webhook.configuration.secret = ""
      · simp [webhook.Create, webhookapi.Webhook.toWebhook, hk, hfail, hname]
      · simp [webhook.Create, webhookapi.Webhook.toWebhook, hk, hfail, hname]
    exact ⟨hres.1, hres.2, fun svc₂ => wh_observe_empty_name svc₂ _ hres.2⟩

/-- Witness for C1: concrete resources with no external name against
always-failing create services. -/
theorem C1_failed_create_leaves_identity_unset_witness :
    ((accesskey.Create keySvcCreateBoom (.ok ("PUB", "PRIV")) (akCR "" "")).result =
      .error (.wrap accesskey.errCreateFailed (.errorMsg "boom")) ∧
     (accesskey.Create keySvcCreateBoom (.ok ("PUB", "PRIV")) (akCR "" "")).cr.externalName = "" ∧
     accesskey.Observe keySvcOk (accesskey.Create keySvcCreateBoom (.ok ("PUB", "PRIV")) (akCR "" "")).cr =
       ⟨.ok ⟨false, false⟩, (accesskey.Create keySvcCreateBoom (.ok ("PUB", "PRIV")) (akCR "" "")).cr, []⟩) ∧
    ((webhook.Create whSvcCreateBoom (.ok "GEN") (whCR "" "" [])).result =
      .error (.wrap webhook.errCreateFailed (.errorMsg "boom")) ∧
     (webhook.Create whSvcCreateBoom (.ok "GEN") (whCR "" "" [])).cr.externalName = "" ∧
     webhook.Observe whSvcNotFound (webhook.Create whSvcCreateBoom (.ok "GEN") (whCR "" "" [])).cr =
       ⟨.ok ⟨false, false⟩, (webhook.Create whSvcCreateBoom (.ok "GEN") (whCR "" "" [])).cr, []⟩) := by
  have h₁ := C1_failed_create_leaves_identity_unset.1 keySvcCreateBoom ("PUB", "PRIV")
    (.errorMsg "boom") (akCR "" "") rfl (fun _ _ => rfl)
  have h₂ := C1_failed_create_leaves_identity_unset.2 whSvcCreateBoom "GEN"
    (.errorMsg "boom") (whCR "" "" []) rfl (fun _ _ => rfl)
  exact ⟨⟨h₁.1, h₁.2.1, h₁.2.2 keySvcOk⟩, ⟨h₂.1, h₂.2.1, h₂.2.2 whSvcNotFound⟩⟩

/-- Counterexample to C2: with a remote delete answering NotFound, both
Delete entry points return a wrapped error instead of completing without
error. -/
theorem C2_delete_notfound_errors_counterexample :
    (accesskey.Delete keySvcNotFound (akCR "99" "k")).result =
      .error (.wrap accesskey.errDeleteFailed .errNotFound) ∧
    (webhook.Delete whSvcNotFound (whCR "99" "123" [])).result =
      .error (.wrap webhook.errDeleteFailed .errNotFound) := ⟨rfl, rfl⟩

/-- C2 as amended: Delete wraps every remote delete failure, the NotFound
error included, in errDeleteFailed and returns it; it completes without
error only when the remote delete reports none. -/
theorem C2_amended_delete_wraps_all_failures :
    (∀ (svc : accesskey.KeyClientAPI) (cr : accesskeyapi.AccessKey) (e : GoError),
      svc.deleteAccessKey cr.repo (atoi cr.externalName).1 = .error e →
      (accesskey.Delete svc cr).result = .error (.wrap accesskey.errDeleteFailed e)) ∧
    (∀ (svc : accesskey.KeyClientAPI) (cr : accesskeyapi.AccessKey),
      svc.deleteAccessKey cr.repo (atoi cr.externalName).1 = .ok () →
      (accesskey.Delete svc cr).result = .ok ()) ∧
    (∀ (svc : webhook.WebhookClientAPI) (cr : webhookapi.Webhook) (e : GoError),
      svc.deleteWebhook cr.repo (atoi cr.externalName).1 = .error e →
      (webhook.Delete svc cr).result = .error (.wrap webhook.errDeleteFailed e)) ∧
    (∀ (svc : webhook.WebhookClientAPI) (cr : webhookapi.Webhook),
      svc.deleteWebhook cr.repo (atoi cr.externalName).1 = .ok () →
      (webhook.Delete svc cr).result = .ok ()) := by
  refine ⟨?_, ?_, ?_, ?_⟩
  · intro svc cr e h
    simp [accesskey.Delete, h]
  · intro svc cr h
    simp [accesskey.Delete, h]
  · intro svc cr e h
    simp only [webhookapi.Webhook.repo] at h
    simp [webhook.Delete, webhookapi.Webhook.repo, h]
  · intro svc cr h
    simp only [webhookapi.Webhook.repo] at h
    simp [webhook.Delete, webhookapi.Webhook.repo, h]

/-- Witness for the amended C2 at concrete inputs. -/
theorem C2_amended_delete_wraps_all_failures_witness :
    ((accesskey.Delete keySvcNotFound (akCR "99" "k")).result =
      .error (.wrap accesskey.errDeleteFailed .errNotFound)) ∧
    ((accesskey.Delete keySvcOk (akCR "99" "k")).result = .ok ()) ∧
    ((webhook.Delete whSvcNotFound (whCR "99" "123" [])).result =
      .error (.wrap webhook.errDeleteFailed .errNotFound)) ∧
    ((webhook.Delete (whSvcOk (whCR "99" "123" []).toWebhook) (whCR "99" "123" [])).result =
      .ok ()) :=
  ⟨C2_amended_delete_wraps_all_failures.1 keySvcNotFound (akCR "99" "k") .errNotFound rfl,
   C2_amended_delete_wraps_all_failures.2.1 keySvcOk (akCR "99" "k") rfl,
   C2_amended_delete_wraps_all_failures.2.2.1 whSvcNotFound (whCR "99" "123" []) .errNotFound rfl,
   C2_amended_delete_wraps_all_failures.2.2.2 (whSvcOk (whCR "99" "123" []).toWebhook)
     (whCR "99" "123" []) rfl⟩

/-- Counterexample to C4: with the unparsable external name "not-a-number"
the access-key Update is not skipped — the remote permission update is
issued (with id 0), so the list of remote calls is not empty. -/
theorem C4_update_malformed_name_counterexample :
    ((atoi (akCR "not-a-number" "k").externalName).2 = false) ∧
    ((accesskey.Update keySvcOk (akCR "not-a-number" "k")).calls =
      [.updateAccessKeyPermission (akCR "not-a-number" "k").repo 0 "REPO_READ"]) ∧
    ((accesskey.Update keySvcOk (akCR "not-a-number" "k")).calls ≠ []) ∧
    ((webhook.Update (whSvcOk (whCR "" "123" []).toWebhook) (whCR "not-a-number" "123" [])).calls ≠ []) := by
  refine ⟨rfl, rfl, ?_, ?_⟩ <;> decide

/-- C4 as amended: when the stored external name cannot be parsed, Update
is not skipped; the Atoi error is discarded and the remote update is
issued with the integer the failed parse returned (0 for a malformed
name), for both kinds. -/
theorem C4_amended_update_issues_remote_call :
    (∀ (svc : accesskey.KeyClientAPI) (cr : accesskeyapi.AccessKey),
      (atoi cr.externalName).2 = false →
      (accesskey.Update svc cr).calls =
        [.updateAccessKeyPermission cr.repo (atoi cr.externalName).1
          cr.forProvider.publicKey.permission]) ∧
    (∀ (svc : webhook.WebhookClientAPI) (cr : webhookapi.Webhook),
      (atoi cr.externalName).2 = false →
      (webhook.Update svc cr).calls =
        [.updateWebhook cr.repo (atoi cr.externalName).1 cr.toWebhook]) := by
  constructor
  · intro svc cr _
    rcases hM : svc.updateAccessKeyPermission cr.repo (atoi cr.externalName).1
        cr.forProvider.publicKey.permission with e | u <;>
      simp [accesskey.Update, hM]
  · intro svc cr _
    rcases hM : svc.updateWebhook cr.repo (atoi cr.externalName).1 cr.toWebhook with e | u <;>
      simp [webhook.Update, hM]

/-- Witness for the amended C4 at the malformed name "not-a-number". -/
theorem C4_amended_update_issues_remote_call_witness :
    ((accesskey.Update keySvcOk (akCR "not-a-number" "k")).calls =
      [.updateAccessKeyPermission (akCR "not-a-number" "k").repo
        (atoi (akCR "not-a-number" "k").externalName).1 "REPO_READ"]) ∧
    ((webhook.Update (whSvcOk (whCR "" "123" []).toWebhook) (whCR "not-a-number" "123" [])).calls =
      [.updateWebhook (whCR "not-a-number" "123" []).repo
        (atoi (whCR "not-a-number" "123" []).externalName).1
        (whCR "not-a-number" "123" []).toWebhook]) :=
  ⟨C4_amended_update_issues_remote_call.1 keySvcOk (akCR "not-a-number" "k") rfl,
   C4_amended_update_issues_remote_call.2 (whSvcOk (whCR "" "123" []).toWebhook)
     (whCR "not-a-number" "123" []) rfl⟩

/-- Remote access key whose label and key text differ from the akCR
fixture while the permission agrees; used to refute C5. -/
def keyOtherLabel : bitbucket.AccessKey :=
  { key := "ssh-rsa OTHER", label := "other@example.com", id := 99, permission := "REPO_READ" }

/-- Access-key service whose get returns `keyOtherLabel`. -/
def keySvcOtherLabel : accesskey.KeyClientAPI :=
  { keySvcOk with getAccessKey := fun _ _ => .ok keyOtherLabel }

/-- Counterexample to C5: the remote key disagrees with the desired
specification on the label and the public key text, yet Observe reports
upToDate=true, because the access-key diff compares only the permission
field. -/
theorem C5_uptodate_ignores_label_and_key_counterexample :
    ((accesskey.Observe keySvcOtherLabel (akCR "99" "ssh-rsa MINE")).result =
      .ok ⟨true, true⟩) ∧
    (akCR "99" "ssh-rsa MINE").forProvider.publicKey.label ≠ keyOtherLabel.label ∧
    (akCR "99" "ssh-rsa MINE").forProvider.publicKey.key ≠ keyOtherLabel.key := by
  refine ⟨rfl, ?_, ?_⟩ <;> decide

/-- C5 as amended: when the access-key Observe finds the remote resource,
upToDate is exactly the equality of the observed and desired permission
fields; label and public key text do not participate. -/
theorem C5_amended_uptodate_is_permission_equality :
    ∀ (svc : accesskey.KeyClientAPI) (cr : accesskeyapi.AccessKey) (id : Int)
      (key : bitbucket.AccessKey),
      cr.externalName ≠ "" → atoi cr.externalName = (id, true) →
      svc.getAccessKey cr.repo id = .ok key →
      (accesskey.Observe svc cr).result =
        .ok ⟨true, key.permission == cr.forProvider.publicKey.permission⟩ := by
  intro svc cr id key hn hA hget
  simp [accesskey.Observe, hn, hA, hget]

/-- Witness for the amended C5: a remote permission drift
(REPO_WRITE vs REPO_READ) yields upToDate=false. -/
theorem C5_amended_uptodate_is_permission_equality_witness :
    (accesskey.Observe
        ({ keySvcOk with getAccessKey := fun _ _ => .ok { keyFix with permission := "REPO_WRITE" } })
        (akCR "99" "k")).result =
      .ok ⟨true, ({ keyFix with permission := "REPO_WRITE" } : bitbucket.AccessKey).permission ==
        (akCR "99" "k").forProvider.publicKey.permission⟩ :=
  C5_amended_uptodate_is_permission_equality
    ({ keySvcOk with getAccessKey := fun _ _ => .ok { keyFix with permission := "REPO_WRITE" } })
    (akCR "99" "k") 99 { keyFix with permission := "REPO_WRITE" } (by decide) rfl rfl

/-- C6: when the observed webhook agrees with the desired one on name,
secret and url, and its event list is a permutation of the desired one,
the webhook Observe reports upToDate=true for any observed ID — the event
lists are compared sorted and the ID field is excluded from the diff. -/
theorem C6_webhook_diff_order_and_id_invariant :
    ∀ (svc : webhook.WebhookClientAPI) (cr : webhookapi.Webhook) (id : Int)
      (hook : bitbucket.Webhook),
      cr.externalName ≠ "" → atoi cr.externalName = (id, true) →
      svc.getWebhook cr.repo id = .ok hook →
      cr.toWebhook.name = hook.name →
      cr.toWebhook.secret = hook.secret →
      cr.toWebhook.url = hook.url →
      cr.toWebhook.events.Perm hook.events →
      (webhook.Observe svc cr).result = .ok ⟨true, true⟩ := by
  intro svc cr id hook hn hA hget hname hsecret hurl hperm
  have hsort : webhook.sortStrings cr.toWebhook.events = webhook.sortStrings hook.events :=
    sortStrings_perm_eq hperm
  simp [webhook.Observe, hn, hA, hget, webhook.upToDateHook, hname, hsecret, hurl, hsort]

/-- Witness for C6: events ["repo:refs_changed", "repo:modified"] against
the reversed list on the remote side, with remote ID 99 against the
desired zero ID. -/
theorem C6_webhook_diff_order_and_id_invariant_witness :
    (webhook.Observe
        (whSvcOk { id := 99, name := "name", secret := "123"
                   events := ["repo:modified", "repo:refs_changed"], url := "https://example.com" })
        (whCR "99" "123" ["repo:refs_changed", "repo:modified"])).result = .ok ⟨true, true⟩ :=
  C6_webhook_diff_order_and_id_invariant
    (whSvcOk { id := 99, name := "name", secret := "123"
               events := ["repo:modified", "repo:refs_changed"], url := "https://example.com" })
    (whCR "99" "123" ["repo:refs_changed", "repo:modified"]) 99
    { id := 99, name := "name", secret := "123"
      events := ["repo:modified", "repo:refs_changed"], url := "https://example.com" }
    (by decide) rfl rfl rfl rfl rfl (by decide)

/-- C7: on a successful remote create, an empty secret/key field makes
Create invoke the generator and return the generated material in the
connection details ("secret" for webhooks, "ssh-privatekey" for access
keys); a non-empty field means the generator is never invoked, the
webhook case echoes the declared secret, and the access-key case returns
no generated material. -/
theorem C7_create_secret_generation :
    (∀ (svc : webhook.WebhookClientAPI) (s : String) (cr : webhookapi.Webhook)
        (res : bitbucket.Webhook),
      cr.forProvider.webhook.configuration.secret = "" →
      svc.createWebhook cr.repo { cr.toWebhook with secret := s } = .ok res →
      (webhook.Create svc (.ok s) cr).result = .ok ⟨[("secret", s)], true⟩ ∧
      (webhook.Create svc (.ok s) cr).genCalled = true) ∧
    (∀ (svc : webhook.WebhookClientAPI) (pw : Except GoError String) (cr : webhookapi.Webhook)
        (res : bitbucket.Webhook),
      cr.forProvider.webhook.configuration.secret ≠ "" →
      svc.createWebhook cr.repo cr.toWebhook = .ok res →
      (webhook.Create svc pw cr).result =
        .ok ⟨[("secret", cr.forProvider.webhook.configuration.secret)], true⟩ ∧
      (webhook.Create svc pw cr).genCalled = false) ∧
    (∀ (svc : accesskey.KeyClientAPI) (pub priv : String) (cr : accesskeyapi.AccessKey)
        (res : bitbucket.AccessKey),
      cr.forProvider.publicKey.key = "" →
      svc.createAccessKey cr.repo
        { key := pub, label := cr.forProvider.publicKey.label, id := 0
          permission := cr.forProvider.publicKey.permission } = .ok res →
      (accesskey.Create svc (.ok (pub, priv)) cr).result = .ok ⟨[("ssh-privatekey", priv)], true⟩ ∧
      (accesskey.Create svc (.ok (pub, priv)) cr).genCalled = true) ∧
    (∀ (svc : accesskey.KeyClientAPI) (kg : Except GoError (String × String))
        (cr : accesskeyapi.AccessKey) (res : bitbucket.AccessKey),
      cr.forProvider.publicKey.key ≠ "" →
      svc.createAccessKey cr.repo cr.accessKey = .ok res →
      (accesskey.Create svc kg cr).result = .ok ⟨[], true⟩ ∧
      (accesskey.Create svc kg cr).genCalled = false) := by
  refine ⟨?_, ?_, ?_, ?_⟩
  · intro svc s cr res hk hcr
    simp only [webhookapi.Webhook.repo, webhookapi.Webhook.toWebhook] at hcr
    simp [webhook.Create, webhookapi.Webhook.toWebhook, webhookapi.Webhook.repo, hk, hcr]
  · intro svc pw cr res hk hcr
    simp only [webhookapi.Webhook.repo, webhookapi.Webhook.toWebhook] at hcr
    simp [webhook.Create, webhookapi.Webhook.toWebhook, webhookapi.Webhook.repo, hk, hcr]
  · intro svc pub priv cr res hk hcr
    simp only [accesskeyapi.AccessKey.repo, accesskeyapi.AccessKey.accessKey] at hcr
    simp [accesskey.Create, accesskey.createHelper, accesskeyapi.AccessKey.accessKey,
      accesskeyapi.AccessKey.repo, hk, hcr]
  · intro svc kg cr res hk hcr
    simp only [accesskeyapi.AccessKey.repo, accesskeyapi.AccessKey.accessKey] at hcr
    simp [accesskey.Create, accesskey.createHelper, accesskeyapi.AccessKey.accessKey,
      accesskeyapi.AccessKey.repo, hk, hcr]

/-- Witness for C7: a webhook with an empty and with a declared secret, and
an access key with an empty and with a declared public key, all against a
service whose create succeeds. -/
theorem C7_create_secret_generation_witness :
    ((webhook.Create (whSvcOk (whCR "" "" []).toWebhook) (.ok "GEN") (whCR "" "" [])).result =
      .ok ⟨[("secret", "GEN")], true⟩ ∧
     (webhook.Create (whSvcOk (whCR "" "" []).toWebhook) (.ok "GEN") (whCR "" "" [])).genCalled = true) ∧
    ((webhook.Create (whSvcOk (whCR "" "" []).toWebhook) (.error (.errorMsg "unused"))
        (whCR "" "123" [])).result = .ok ⟨[("secret", "123")], true⟩ ∧
     (webhook.Create (whSvcOk (whCR "" "" []).toWebhook) (.error (.errorMsg "unused"))
        (whCR "" "123" [])).genCalled = false) ∧
    ((accesskey.Create keySvcOk (.ok ("GENPUB", "GENPRIV")) (akCR "" "")).result =
      .ok ⟨[("ssh-privatekey", "GENPRIV")], true⟩ ∧
     (accesskey.Create keySvcOk (.ok ("GENPUB", "GENPRIV")) (akCR "" "")).genCalled = true) ∧
    ((accesskey.Create keySvcOk (.error (.errorMsg "unused")) (akCR "" "declared")).result =
      .ok ⟨[], true⟩ ∧
     (accesskey.Create keySvcOk (.error (.errorMsg "unused")) (akCR "" "declared")).genCalled = false) :=
  ⟨C7_create_secret_generation.1 (whSvcOk (whCR "" "" []).toWebhook) "GEN" (whCR "" "" [])
     { (whCR "" "" []).toWebhook with secret := "GEN", id := 22 } rfl rfl,
   C7_create_secret_generation.2.1 (whSvcOk (whCR "" "" []).toWebhook) (.error (.errorMsg "unused"))
     (whCR "" "123" []) { (whCR "" "123" []).toWebhook with id := 22 } (by decide) rfl,
   C7_create_secret_generation.2.2.1 keySvcOk "GENPUB" "GENPRIV" (akCR "" "")
     { key := "GENPUB", label := "user@example.com", id := 22, permission := "REPO_READ" } rfl rfl,
   C7_create_secret_generation.2.2.2 keySvcOk (.error (.errorMsg "unused")) (akCR "" "declared")
     { (akCR "" "declared").accessKey with id := 22 } (by decide) rfl⟩

/-- Counterexample to C8: for an access key created with an empty key
field, Create writes the generated public key into the specification's
key field itself, so after Create the field no longer holds the declared
empty value. -/
theorem C8_accesskey_create_mutates_spec_counterexample :
    (akCR "" "").forProvider.publicKey.key = "" ∧
    (accesskey.Create keySvcOk (.ok ("GENPUB", "GENPRIV")) (akCR "" "")).cr.forProvider.publicKey.key
      = "GENPUB" := ⟨rfl, rfl⟩

/-- The lower-case create helper never touches `Spec.ForProvider`: it only
writes the external name, the condition and the status fields. -/
theorem ak_createHelper_forProvider_eq (svc : accesskey.KeyClientAPI)
    (cr : accesskeyapi.AccessKey) (out : Out accesskeyapi.AccessKey accesskey.KeyCall Unit)
    (h : accesskey.createHelper svc cr = out) : out.cr.forProvider = cr.forProvider := by
  subst h
  rcases hC : svc.createAccessKey cr.repo cr.accessKey with e | k <;>
    simp [accesskey.createHelper, hC]

/-- C8 as amended: the webhook splice is call-local — Create never changes
the specification's secret field and Update always sends the declared
desired state — but the access-key Create persists the generated public
key into the specification's key field (only the private key stays out of
the specification). -/
theorem C8_amended_splice_scope :
    (∀ (svc : webhook.WebhookClientAPI) (pw : Except GoError String) (cr : webhookapi.Webhook),
      (webhook.Create svc pw cr).cr.forProvider.webhook.configuration.secret =
        cr.forProvider.webhook.configuration.secret) ∧
    (∀ (svc : webhook.WebhookClientAPI) (cr : webhookapi.Webhook),
      (webhook.Update svc cr).calls =
        [.updateWebhook cr.repo (atoi cr.externalName).1 cr.toWebhook]) ∧
    (∀ (svc : accesskey.KeyClientAPI) (pub priv : String) (cr : accesskeyapi.AccessKey),
      cr.forProvider.publicKey.key = "" →
      (accesskey.Create svc (.ok (pub, priv)) cr).cr.forProvider.publicKey.key = pub) := by
  refine ⟨?_, ?_, ?_⟩
  · intro svc pw cr
    unfold webhook.Create
    dsimp only
    split <;> (try split) <;> (try split) <;> rfl
  · intro svc cr
    rcases hM : svc.updateWebhook cr.repo (atoi cr.externalName).1 cr.toWebhook with e | u <;>
      simp [webhook.Update, hM]
  · intro svc pub priv cr hk
    simp only [accesskey.Create, hk, if_true, eq_self_iff_true]
    split <;>
      (rename_i heq
       have h := ak_createHelper_forProvider_eq svc _ _ heq
       simp at h
       simp [h])

/-- Witness for the amended C8 at concrete inputs. -/
theorem C8_amended_splice_scope_witness :
    ((webhook.Create (whSvcOk (whCR "" "" []).toWebhook) (.ok "GEN")
        (whCR "" "" [])).cr.forProvider.webhook.configuration.secret =
      (whCR "" "" []).forProvider.webhook.configuration.secret) ∧
    ((webhook.Update (whSvcOk (whCR "" "" []).toWebhook) (whCR "99" "" [])).calls =
      [.updateWebhook (whCR "99" "" []).repo (atoi (whCR "99" "" []).externalName).1
        (whCR "99" "" []).toWebhook]) ∧
    ((accesskey.Create keySvcOk (.ok ("GENPUB", "GENPRIV")) (akCR "" "")).cr.forProvider.publicKey.key
      = "GENPUB") :=
  ⟨C8_amended_splice_scope.1 (whSvcOk (whCR "" "" []).toWebhook) (.ok "GEN") (whCR "" "" []),
   C8_amended_splice_scope.2.1 (whSvcOk (whCR "" "" []).toWebhook) (whCR "99" "" []),
   C8_amended_splice_scope.2.2 keySvcOk "GENPUB" "GENPRIV" (akCR "" "") rfl⟩

/-- C9: when the desired webhook secret is empty but the observed remote
webhook carries a non-empty secret (as after a Create that generated
one), Observe reports upToDate=false — the secret participates in the
diff — and a subsequent Update sends the desired specification's empty
secret to the server. -/
theorem C9_webhook_empty_secret_drift :
    ∀ (svc : webhook.WebhookClientAPI) (cr : webhookapi.Webhook) (id : Int)
      (hook : bitbucket.Webhook),
      cr.externalName ≠ "" → atoi cr.externalName = (id, true) →
      svc.getWebhook cr.repo id = .ok hook →
      cr.forProvider.webhook.configuration.secret = "" →
      hook.secret ≠ "" →
      (webhook.Observe svc cr).result = .ok ⟨true, false⟩ ∧
      cr.toWebhook.secret = "" ∧
      ∀ svc₂, (webhook.Update svc₂ cr).calls = [.updateWebhook cr.repo id cr.toWebhook] := by
  intro svc cr id hook hn hA hget hempty hremote
  have hsec : cr.toWebhook.secret = "" := by
    simp [webhookapi.Webhook.toWebhook, hempty]
  refine ⟨?_, hsec, ?_⟩
  · have hfalse : webhook.upToDateHook cr.toWebhook hook = false := by
      simp [webhook.upToDateHook, hsec, Ne.symm hremote]
    simp [webhook.Observe, hn, hA, hget, hfalse]
  · intro svc₂
    rcases hM : svc₂.updateWebhook cr.repo (atoi cr.externalName).1 cr.toWebhook with e | u <;>
      simp [webhook.Update, hA, hM] <;> simp [hA] at hM ⊢ <;> simp [hM]

/-- Witness for C9: the desired fixture with an empty secret against a
remote webhook whose secret is the generated "GEN". -/
theorem C9_webhook_empty_secret_drift_witness :
    ((webhook.Observe
        (whSvcOk { id := 99, name := "name", secret := "GEN"
                   events := [], url := "https://example.com" })
        (whCR "99" "" [])).result = .ok ⟨true, false⟩) ∧
    ((whCR "99" "" []).toWebhook.secret = "") ∧
    ((webhook.Update (whSvcOk (whCR "99" "" []).toWebhook) (whCR "99" "" [])).calls =
      [.updateWebhook (whCR "99" "" []).repo 99 (whCR "99" "" []).toWebhook]) := by
  have h := C9_webhook_empty_secret_drift
    (whSvcOk { id := 99, name := "name", secret := "GEN"
               events := [], url := "https://example.com" })
    (whCR "99" "" []) 99
    { id := 99, name := "name", secret := "GEN", events := [], url := "https://example.com" }
    (by decide) rfl rfl rfl (by decide)
  exact ⟨h.1, h.2.1, h.2.2 (whSvcOk (whCR "99" "" []).toWebhook)⟩

/-- C10: the OpenSSH authorized-key line keygen returns as the public half
equals the public key independently re-derived from the returned
PEM-serialized private key, for every generated RSA private key. -/
theorem C10_keygen_roundtrip :
    ∀ priv : accesskey.RSAPrivateKey,
      accesskey.rederivePublicKey (accesskey.keygen priv).2 =
        some (accesskey.keygen priv).1 := by
  intro priv
  rfl
